import Mathlib

/-!
# Probe endpoints of the demo Express application (`src/app/src/index.js`)

A shallow embedding of the request pipeline of `index.js`:
`express.json()`, the request logger, the five `app.get` routes, the 404
handler and the error handler.

Modelling conventions.

* JavaScript numbers are IEEE 754 doubles; a double is the rational (`ℚ`) it denotes,
  and `roundDouble` rounds an exact result to the nearest double (ties to even). The
  product `Math.random() * 1000` is rounded; the divisions of a byte count by 1024 are
  exact in doubles (a power of two) and are kept exact. Results of `Math.floor` and
  `Math.round` are integers (`ℤ`) and are rendered in decimal.
  The text of the uptime reading inside the template literal (ECMAScript
  `Number::toString` of a double) is a parameter `numText : ℚ → String`.
* Every read of the outside world (`new Date()`, `process.uptime()`,
  `Math.random()`, `process.memoryUsage()`, `process.env`) is a field of `Runtime`,
  one field per read, in the order the program performs the reads.
* The response object `res` is a value of type `Res` threaded through the handlers;
  its payload is the value handed to `res.json` / `res.send`, before serialisation.
* Route matching follows the Express 4 defaults (`case sensitive routing` and
  `strict routing` both off; a `GET` route also serves `HEAD`).
-/

set_option maxRecDepth 20000

namespace ProbeApp

/-! ## Data model -/

/-- JSON values handed to `res.json`. -/
inductive Json where
  | str (s : String)
  | num (q : ℚ)
  | arr (items : List Json)
  | obj (fields : List (String × Json))

/-- A thrown JavaScript error; only its `message` is read by the program. -/
structure JsError where
  message : String
deriving DecidableEq

/-- Result of evaluating a JavaScript expression: a value, or a thrown error. -/
abbrev Completion (α : Type) := Except JsError α

/-- An incoming request as the handlers see it: `req.method`, `req.path`, and the
error (if any) that the `express.json()` body parser passes to `next`. -/
structure Request where
  method : String
  path : String
  bodyError : Option JsError
deriving DecidableEq

/-- What a handler hands to `res.json` (a JSON value) or `res.send` (a string). -/
inductive Payload where
  | json (j : Json)
  | text (s : String)

/-- The response object: status code (Node default 200), the `Content-Type`
media type if one has been set, and the payload once one has been sent. -/
structure Res where
  statusCode : Nat
  contentType : Option String
  payload : Option Payload

/-- A fresh response object, before any handler ran. -/
def Res.fresh : Res := ⟨200, none, none⟩

/-- Action `res.status(code)`. -/
def Res.status (res : Res) (code : Nat) : Res := { res with statusCode := code }

/-- Action `res.set('Content-Type', value)`. -/
def Res.setType (res : Res) (value : String) : Res := { res with contentType := some value }

/-- Action `res.send(text)` for a string argument: the type defaults to `text/html`
when none was set. -/
def Res.send (res : Res) (s : String) : Res :=
  { res with contentType := some (res.contentType.getD "text/html"), payload := some (.text s) }

/-- Action `res.json(value)`: the type becomes `application/json` unless one was set
before; the payload is the value that is serialised. -/
def Res.json (res : Res) (j : Json) : Res :=
  { res with contentType := some (res.contentType.getD "application/json"),
             payload := some (.json j) }

/-- One `process.memoryUsage()` result (the two fields the program reads). -/
structure MemoryUsage where
  heapTotal : Nat
  heapUsed : Nat
deriving DecidableEq

/-- Every read of process state made while one request is served. -/
structure Runtime where
  /-- Reading `new Date().toISOString()` in the request logger. -/
  logTime : String
  /-- Reading `new Date().toISOString()` in the route handler. -/
  now : String
  /-- Reading `process.uptime()`. -/
  uptime : ℚ
  /-- Reading `Math.random()`. -/
  random : ℚ
  /-- First `process.memoryUsage()` call of `/api/info` (read for `heapTotal`). -/
  memFirst : MemoryUsage
  /-- Second `process.memoryUsage()` call of `/api/info` (read for `heapUsed`). -/
  memSecond : MemoryUsage
  /-- Variable `process.env.APP_VERSION`. -/
  appVersion : Option String
  /-- Variable `process.env.APP_ENV`. -/
  appEnv : Option String
  /-- Value `process.version`. -/
  nodeVersion : String
  /-- Value `process.platform`. -/
  platform : String
  /-- Value `process.arch`. -/
  arch : String

/-- A console write: `console.log(line)` or `console.error(label, err)`. -/
inductive ConsoleEntry where
  | log (line : String)
  | error (label : String) (err : JsError)
deriving DecidableEq

/-- Field lookup in a JSON object (first occurrence of the key). -/
def Json.field (j : Json) (key : String) : Option Json :=
  match j with
  | .obj fields => (fields.find? (fun kv => kv.1 == key)).map Prod.snd
  | _ => none

/-- The JSON payload of a response, if it has one. -/
def Res.jsonBody (res : Res) : Option Json :=
  match res.payload with
  | some (.json j) => some j
  | _ => none

/-- The text payload of a response, if it has one. -/
def Res.textBody (res : Res) : Option String :=
  match res.payload with
  | some (.text s) => some s
  | _ => none

/-! ## JavaScript primitives used by the handlers -/

/-- Expression `v || d` for an environment variable: `undefined` and the empty string are
falsy. -/
def orDefault (v : Option String) (d : String) : String :=
  match v with
  | some s => if s = "" then d else s
  | none => d

/-- Function `Math.floor`. -/
def mathFloor (x : ℚ) : ℤ := ⌊x⌋

/-- Function `Math.round`: nearest integer, ties towards `+∞`. -/
def mathRound (x : ℚ) : ℤ := ⌊x + 1 / 2⌋

/-- Nearest integer of a rational, a tie going to the even neighbour. -/
def roundHalfEven (q : ℚ) : ℤ :=
  let f := ⌊q⌋
  let d := q - f
  if d < 1 / 2 then f else if 1 / 2 < d then f + 1 else if f % 2 = 0 then f else f + 1

/-- The binary exponent `e` of the binade `2^e ≤ |x| < 2^(e+1)` a double is taken from,
not below the exponent -1022 of the subnormal range. -/
def binadeExp (x : ℚ) : ℤ := max (Int.log 2 |x|) (-1022)

/-- IEEE 754 binary64 rounding (round to nearest, ties to even) of an exact result of
magnitude below `2^1024`: the nearest multiple of the unit in the last place
`2^(e-52)` of its binade. -/
def roundDouble (x : ℚ) : ℚ :=
  roundHalfEven (x / 2 ^ (binadeExp x - 52)) * 2 ^ (binadeExp x - 52)

/-- A rational is a double when rounding leaves it unchanged. -/
def IsDouble (x : ℚ) : Prop := roundDouble x = x

instance (x : ℚ) : Decidable (IsDouble x) := by
  unfold IsDouble; infer_instance

/-- Code points removed by `String.prototype.trim` (ECMAScript `WhiteSpace` and
`LineTerminator`). -/
def isJsWhiteSpace (c : Char) : Bool :=
  let n := c.toNat
  n = 0x09 || n = 0x0A || n = 0x0B || n = 0x0C || n = 0x0D || n = 0x20 || n = 0xA0 ||
  n = 0x1680 || (0x2000 ≤ n && n ≤ 0x200A) || n = 0x2028 || n = 0x2029 || n = 0x202F ||
  n = 0x205F || n = 0x3000 || n = 0xFEFF

/-- Method `String.prototype.trim`. -/
def jsTrim (s : String) : String :=
  ⟨(s.data.dropWhile isJsWhiteSpace).rdropWhile isJsWhiteSpace⟩

/-! ## Route handlers -/

/-- Handler of `app.get('/')`. -/
def rootHandler (_req : Request) (rt : Runtime) (res : Res) : Res :=
  res.json (.obj [
    ("message", .str "Welcome to EKS CI/CD Demo Application!"),
    ("version", .str (orDefault rt.appVersion "1.0.0")),
    ("environment", .str (orDefault rt.appEnv "development")),
    ("timestamp", .str rt.now)])

/-- Handler of `app.get('/health')`. -/
def healthHandler (_req : Request) (rt : Runtime) (res : Res) : Res :=
  (res.status 200).json (.obj [
    ("status", .str "healthy"),
    ("uptime", .num rt.uptime),
    ("timestamp", .str rt.now)])

/-- Handler of `app.get('/ready')`. -/
def readyHandler (_req : Request) (rt : Runtime) (res : Res) : Res :=
  (res.status 200).json (.obj [
    ("status", .str "ready"),
    ("timestamp", .str rt.now)])

/-- The template literal of `/metrics`, before `.trim()`, for the two interpolated
values. -/
def metricsTemplate (requests : String) (uptime : String) : String :=
  "\n# HELP app_requests_total Total number of requests\n" ++
  "# TYPE app_requests_total counter\n" ++
  "app_requests_total\x7bmethod=\"GET\",endpoint=\"/\"\x7d " ++ requests ++ "\n" ++
  "\n" ++
  "# HELP app_uptime_seconds Application uptime in seconds\n" ++
  "# TYPE app_uptime_seconds gauge\n" ++
  "app_uptime_seconds " ++ uptime ++ "\n  "

/-- The interpolated expression `Math.floor(Math.random() * 1000)` for a draw `r`: the
product is a double multiplication, rounded before the floor is taken. -/
def requestsSample (r : ℚ) : ℤ := mathFloor (roundDouble (r * 1000))

/-- Handler of `app.get('/metrics')`. The two interpolated expressions are evaluated
left to right after `res.set`; if one throws, the handler throws with the response
object as `res.set` left it. -/
def metricsHandler (numText : ℚ → String) (_req : Request)
    (random uptime : Completion ℚ) (res : Res) : Res × Option JsError :=
  let res1 := res.setType "text/plain"
  match random with
  | .error e => (res1, some e)
  | .ok r =>
    match uptime with
    | .error e => (res1, some e)
    | .ok u =>
      (res1.send (jsTrim (metricsTemplate (toString (requestsSample r)) (numText u))), none)

/-- Expression `Math.round(bytes / 1024 / 1024) + ' MB'`. Dividing a double by 1024
only lowers its exponent, so both quotients are exact. -/
def megabytes (bytes : Nat) : String :=
  toString (mathRound ((bytes : ℚ) / 1024 / 1024)) ++ " MB"

/-- Handler of `app.get('/api/info')`. -/
def infoHandler (_req : Request) (rt : Runtime) (res : Res) : Res :=
  res.json (.obj [
    ("application", .str "EKS CI/CD Demo"),
    ("version", .str "1.0.0"),
    ("node_version", .str rt.nodeVersion),
    ("platform", .str rt.platform),
    ("architecture", .str rt.arch),
    ("memory", .obj [
      ("total", .str (megabytes rt.memFirst.heapTotal)),
      ("used", .str (megabytes rt.memSecond.heapUsed))])])

/-- The 404 handler (`app.use` without a path, after the routes). -/
def notFoundHandler (req : Request) (res : Res) : Res :=
  (res.status 404).json (.obj [
    ("error", .str "Not Found"),
    ("path", .str req.path)])

/-- The error handler (`app.use` with four parameters); its `console.error` write is
recorded by the caller. -/
def errorHandler (err : JsError) (_req : Request) (res : Res) : Res :=
  (res.status 500).json (.obj [
    ("error", .str "Internal Server Error"),
    ("message", .str err.message)])

/-! ## Routing and the middleware chain -/

/-- The five `app.get` routes, in registration order. -/
inductive Route where
  | root
  | health
  | ready
  | metrics
  | info
deriving DecidableEq

/-- The path pattern each route was registered with. -/
def Route.pattern : Route → String
  | .root => "/"
  | .health => "/health"
  | .ready => "/ready"
  | .metrics => "/metrics"
  | .info => "/api/info"

/-- The route table in registration order. -/
def routes : List Route := [.root, .health, .ready, .metrics, .info]

/-- ASCII lower-casing of a path (the effect of the `i` flag of the route regular
expression on these patterns). -/
def lowerPath (p : String) : String := ⟨p.data.map Char.toLower⟩

/-- Whether a route pattern matches the request path. Express compiles the pattern of
`app.get` with the defaults `end: true`, `strict: false`, `sensitive: false`, that is
the regular expression `^pattern\/?$` (for the pattern `/`: `^\/?$`) with flag `i`. -/
def pathMatches (pattern path : String) : Bool :=
  let p := lowerPath path
  if pattern = "/" then p = "" || p = "/" else p = pattern || p = pattern ++ "/"

/-- Whether a route registered with `app.get` handles the request method: `GET`, and
`HEAD` because no `HEAD` route is registered (Express `Route._handles_method`). Node
delivers `req.method` in upper case. -/
def handlesMethod (method : String) : Bool := method = "GET" || method = "HEAD"

/-- The first registered route that matches the request, if any. -/
def matchRoute (req : Request) : Option Route :=
  routes.find? (fun r => pathMatches r.pattern req.path && handlesMethod req.method)

/-- The lower-cased paths the five routes accept between them: each registered path,
with one optional trailing slash (for the root path: the empty path and `/`). -/
def servedPaths : List String :=
  ["", "/", "/health", "/health/", "/ready", "/ready/", "/metrics", "/metrics/",
   "/api/info", "/api/info/"]

/-- What serving one request produces: the final response object and the console
writes in order. -/
structure Outcome where
  res : Res
  console : List ConsoleEntry

/-- The line written by the request logging middleware. -/
def logLine (req : Request) (rt : Runtime) : ConsoleEntry :=
  .log (rt.logTime ++ " - " ++ req.method ++ " " ++ req.path)

/-- Express runs a handler inside `try`/`catch`: a thrown error skips the remaining
ordinary middleware and reaches the error handler, which logs it and answers. -/
def finish (req : Request) (r : Res × Option JsError) : Outcome :=
  match r with
  | (res, none) => ⟨res, []⟩
  | (res, some err) => ⟨errorHandler err req res, [.error "Error:" err]⟩

/-- The `/metrics` route as Express runs it: the handler, then the error handler if
the handler threw. -/
def metricsRoute (numText : ℚ → String) (req : Request)
    (random uptime : Completion ℚ) (res : Res) : Outcome :=
  finish req (metricsHandler numText req random uptime res)

/-- The route handler of a matched route, run the way Express runs it. -/
def serveRoute (numText : ℚ → String) (r : Route) (req : Request) (rt : Runtime) : Outcome :=
  match r with
  | .root => ⟨rootHandler req rt Res.fresh, []⟩
  | .health => ⟨healthHandler req rt Res.fresh, []⟩
  | .ready => ⟨readyHandler req rt Res.fresh, []⟩
  | .metrics => metricsRoute numText req (.ok rt.random) (.ok rt.uptime) Res.fresh
  | .info => ⟨infoHandler req rt Res.fresh, []⟩

/-- The application: `express.json()`, the request logger, the routes in registration
order, the 404 handler; the error handler for errors raised on the way. -/
def app (numText : ℚ → String) (req : Request) (rt : Runtime) : Outcome :=
  match req.bodyError with
  | some err => ⟨errorHandler err req Res.fresh, [.error "Error:" err]⟩
  | none =>
    let handled : Outcome :=
      match matchRoute req with
      | some r => serveRoute numText r req rt
      | none => ⟨notFoundHandler req Res.fresh, []⟩
    ⟨handled.res, logLine req rt :: handled.console⟩

/-! ## Observations on responses -/

/-- The `uptime` number a JSON response reports, if it reports one. -/
def reportedUptime (res : Res) : Option ℚ :=
  match res.jsonBody.bind (fun j => j.field "uptime") with
  | some (.num q) => some q
  | _ => none

/-- The `status` field of a JSON response, if present. -/
def reportedStatus (res : Res) : Option Json :=
  res.jsonBody.bind (fun j => j.field "status")

/-- A field of the `memory` object of a JSON response, if present. -/
def memoryField (res : Res) (key : String) : Option Json :=
  (res.jsonBody.bind (fun j => j.field "memory")).bind (fun j => j.field key)

/-- The lines of a text body (split at line feeds). -/
def textLines (s : String) : List String := (s.data.splitOn '\n').map String.mk

/-- The seven lines of the text exposition for the two interpolated texts. -/
def expositionLines (requests uptime : String) : List String :=
  ["# HELP app_requests_total Total number of requests",
   "# TYPE app_requests_total counter",
   "app_requests_total\x7bmethod=\"GET\",endpoint=\"/\"\x7d " ++ requests,
   "",
   "# HELP app_uptime_seconds Application uptime in seconds",
   "# TYPE app_uptime_seconds gauge",
   "app_uptime_seconds " ++ uptime]

/-- What a line of the exposition is identified by: a comment line (`# HELP`, `# TYPE`)
by its full text, any other line by its metric name, the characters before the first
opening brace or space (empty for an empty line). -/
def lineKey (line : String) : String :=
  if line.data.head? = some '#' then line
  else ⟨line.data.takeWhile (fun c => c != '\x7b' && c != ' ')⟩

/-- The keys of all lines of a scrape, in output order. -/
def scrapeKeys (body : String) : List String := (textLines body).map lineKey

/-- The metric names of the sample lines of a scrape, in output order. -/
def metricNames (body : String) : List String :=
  ((textLines body).filter (fun l => l.data != [] && l.data.head? != some '#')).map lineKey

/-- The characters ECMAScript `Number::toString` can produce (digits, sign, point,
exponent mark, and the letters of `Infinity` and `NaN`). -/
def numberChars : List Char := "0123456789.-+eInfinityNaN".data

/-- A text is a number text when it is non-empty and made of number characters. -/
def IsNumberText (t : String) : Prop := t.data ≠ [] ∧ ∀ c ∈ t.data, c ∈ numberChars

instance (t : String) : Decidable (IsNumberText t) := by
  unfold IsNumberText; infer_instance

/-! ## Sample inputs -/

/-- A number text for sample runs: the integer part in decimal. -/
def sampleNumText (q : ℚ) : String := toString (q.num / q.den)

/-- A sample process state; the draw is the double written `0.9`. -/
def sampleRuntime : Runtime where
  logTime := "2024-01-01T00:00:00.000Z"
  now := "2024-01-01T00:00:00.001Z"
  uptime := 12
  random := roundDouble (9 / 10)
  memFirst := ⟨8388608, 4194304⟩
  memSecond := ⟨8388608, 5242880⟩
  appVersion := none
  appEnv := some "production"
  nodeVersion := "v18.0.0"
  platform := "linux"
  arch := "x64"

/-- A draw in `[0,1)`, a multiple of `2^-52`, whose product with 1000 lies just below
119 and rounds up to 119. -/
def roundingDraw : ℚ := 535928355657089 / 2 ^ 52

/-- The sample process state five seconds later: clock, uptime, draw, memory and
environment readings differ; the draw is the double written `0.1`. -/
def sampleRuntimeLater : Runtime where
  logTime := "2024-01-01T00:00:05.000Z"
  now := "2024-01-01T00:00:05.002Z"
  uptime := 17
  random := roundDouble (1 / 10)
  memFirst := ⟨8388608, 6291456⟩
  memSecond := ⟨9437184, 6291456⟩
  appVersion := some "2.0.0"
  appEnv := none
  nodeVersion := "v18.0.0"
  platform := "linux"
  arch := "x64"

end ProbeApp

namespace ProbeApp

/-! ## Lemmas on texts -/

theorem rdropWhile_tail {α : Type} (p : α → Bool) (pre u : List α) (hne : u ≠ [])
    (hlast : p (u.getLast hne) = false) (ws : List α) (hws : ∀ c ∈ ws, p c = true) :
    (pre ++ u ++ ws).rdropWhile p = pre ++ u := by
  induction ws using List.reverseRecOn with
  | nil =>
    simp only [List.append_nil]
    rw [List.rdropWhile_eq_self_iff]
    intro hl
    have hlast2 : (pre ++ u).getLast hl = u.getLast hne := List.getLast_append_of_ne_nil hne
    rw [hlast2, hlast]; simp
  | append_singleton l a ih =>
    rw [← List.append_assoc, List.rdropWhile_concat_pos _ _ _ (hws a (by simp))]
    exact ih (fun c hc => hws c (by simp [hc]))

theorem digitChar_isDigit (d : Nat) (h : d < 10) : (Nat.digitChar d).isDigit = true := by
  interval_cases d <;> decide

theorem toDigitsCore_digits (fuel : Nat) : ∀ (n : Nat) (acc : List Char),
    (∀ c ∈ acc, c.isDigit = true) →
    ∀ c ∈ Nat.toDigitsCore 10 fuel n acc, c.isDigit = true := by
  induction fuel with
  | zero => intro n acc h; simpa [Nat.toDigitsCore] using h
  | succ f ih =>
    intro n acc h
    simp only [Nat.toDigitsCore]
    have hd := digitChar_isDigit (n % 10) (Nat.mod_lt _ (by norm_num))
    have hacc : ∀ c ∈ Nat.digitChar (n % 10) :: acc, c.isDigit = true := by
      intro c hc
      simp only [List.mem_cons] at hc
      rcases hc with rfl | hc
      · exact hd
      · exact h c hc
    split
    · exact hacc
    · exact ih _ _ hacc

theorem natText_digits (n : Nat) : ∀ c ∈ (toString n).data, c.isDigit = true := by
  show ∀ c ∈ (Nat.repr n).data, c.isDigit = true
  simp only [Nat.repr, Nat.toDigits, List.asString]
  exact toDigitsCore_digits _ _ _ (by simp)

theorem intText_no_newline (z : ℤ) : '\n' ∉ (toString z).data := by
  intro hmem
  cases z with
  | ofNat k =>
    have h := natText_digits k '\n' hmem
    exact absurd h (by decide)
  | negSucc k =>
    have hdata : (toString (Int.negSucc k)).data = '-' :: (toString (k + 1)).data := rfl
    rw [hdata, List.mem_cons] at hmem
    rcases hmem with h | h
    · exact absurd h (by decide)
    · exact absurd (natText_digits _ _ h) (by decide)

theorem numberChars_not_space : ∀ c ∈ numberChars, isJsWhiteSpace c = false := by decide

theorem numberText_no_newline {t : String} (h : IsNumberText t) : '\n' ∉ t.data := by
  intro hmem
  have h1 := numberChars_not_space _ (h.2 _ hmem)
  exact absurd h1 (by decide)

theorem numberText_last {t : String} (h : IsNumberText t) :
    isJsWhiteSpace (t.data.getLast h.1) = false :=
  numberChars_not_space _ (h.2 _ (List.getLast_mem h.1))

/-- Trimming the template leaves the seven exposition lines joined by line feeds. -/
theorem jsTrim_metricsTemplate (a b : String) (hb : IsNumberText b) :
    jsTrim (metricsTemplate a b) = "\n".intercalate (expositionLines a b) := by
  apply String.ext
  have hdrop : (metricsTemplate a b).data.dropWhile isJsWhiteSpace =
      ("# HELP app_requests_total Total number of requests\n" ++
        "# TYPE app_requests_total counter\n" ++
        "app_requests_total\x7bmethod=\"GET\",endpoint=\"/\"\x7d " ++ a ++ "\n" ++
        "\n" ++
        "# HELP app_uptime_seconds Application uptime in seconds\n" ++
        "# TYPE app_uptime_seconds gauge\n" ++
        "app_uptime_seconds ").data ++ b.data ++ ['\n', ' ', ' '] := by
    have hd : (metricsTemplate a b).data = '\n' ::
        (("# HELP app_requests_total Total number of requests\n" ++
        "# TYPE app_requests_total counter\n" ++
        "app_requests_total\x7bmethod=\"GET\",endpoint=\"/\"\x7d " ++ a ++ "\n" ++
        "\n" ++
        "# HELP app_uptime_seconds Application uptime in seconds\n" ++
        "# TYPE app_uptime_seconds gauge\n" ++
        "app_uptime_seconds ").data ++ b.data ++ ['\n', ' ', ' ']) := by
      simp [metricsTemplate]
    rw [hd]
    simp only [String.data_append, List.append_assoc]
    rfl
  simp only [jsTrim]
  rw [hdrop, rdropWhile_tail _ _ _ hb.1 (numberText_last hb) _ (by decide)]
  simp [expositionLines, String.intercalate, String.intercalate.go]

/-- Splitting the joined exposition at line feeds gives back the seven lines. -/
theorem textLines_exposition (a b : String) (ha : '\n' ∉ a.data) (hb : '\n' ∉ b.data) :
    textLines ("\n".intercalate (expositionLines a b)) = expositionLines a b := by
  have h : ("\n".intercalate (expositionLines a b)).data =
      ['\n'].intercalate ((expositionLines a b).map String.data) := by
    simp [expositionLines, String.intercalate, String.intercalate.go, List.intercalate]
  rw [textLines, h, List.splitOn_intercalate, List.map_map]
  · have hid : String.mk ∘ String.data = id := by funext s; rfl
    rw [hid, List.map_id]
  · intro l hl
    simp [expositionLines] at hl
    rcases hl with h | h | h | h | h | h | h <;> subst h <;> simp [ha, hb]
  · simp [expositionLines]

theorem exposition_head (a b : String) :
    ("\n".intercalate (expositionLines a b)).data.head? = some '#' := by
  simp [expositionLines, String.intercalate, String.intercalate.go]

theorem exposition_last (a b : String) (hb : IsNumberText b) :
    ("\n".intercalate (expositionLines a b)).data.getLast? = some (b.data.getLast hb.1) := by
  have h : ("\n".intercalate (expositionLines a b)).data =
      ("# HELP app_requests_total Total number of requests\n" ++
        "# TYPE app_requests_total counter\n" ++
        "app_requests_total\x7bmethod=\"GET\",endpoint=\"/\"\x7d " ++ a ++ "\n" ++
        "\n" ++
        "# HELP app_uptime_seconds Application uptime in seconds\n" ++
        "# TYPE app_uptime_seconds gauge\n" ++
        "app_uptime_seconds ").data ++ b.data := by
    simp [expositionLines, String.intercalate, String.intercalate.go]
  rw [h, List.getLast?_append_of_ne_nil _ hb.1, List.getLast?_eq_getLast]

theorem scrapeKeys_exposition (a b : String) (ha : '\n' ∉ a.data) (hb : '\n' ∉ b.data) :
    scrapeKeys ("\n".intercalate (expositionLines a b)) =
      ["# HELP app_requests_total Total number of requests",
       "# TYPE app_requests_total counter",
       "app_requests_total",
       "",
       "# HELP app_uptime_seconds Application uptime in seconds",
       "# TYPE app_uptime_seconds gauge",
       "app_uptime_seconds"] := by
  rw [scrapeKeys, textLines_exposition a b ha hb]
  simp [expositionLines, lineKey]

theorem metricNames_exposition (a b : String) (ha : '\n' ∉ a.data) (hb : '\n' ∉ b.data) :
    metricNames ("\n".intercalate (expositionLines a b)) =
      ["app_requests_total", "app_uptime_seconds"] := by
  rw [metricNames, textLines_exposition a b ha hb]
  simp [expositionLines, lineKey]

/-! ## Lemmas on numbers -/

theorem roundHalfEven_le (q : ℚ) : (roundHalfEven q : ℚ) ≤ q + 1 / 2 := by
  unfold roundHalfEven
  have h1 := Int.floor_le q
  have h2 := Int.lt_floor_add_one q
  simp only
  split_ifs with a b c
  · linarith
  · push_cast; linarith
  · linarith
  · push_cast
    have : q - ⌊q⌋ = 1 / 2 := le_antisymm (not_lt.mp b) (not_lt.mp a)
    linarith

theorem roundHalfEven_nonneg (q : ℚ) (h : 0 ≤ q) : 0 ≤ roundHalfEven q := by
  unfold roundHalfEven
  have h1 : 0 ≤ ⌊q⌋ := Int.floor_nonneg.mpr h
  simp only
  split_ifs <;> omega

theorem roundHalfEven_of_near (q : ℚ) (n : ℤ) (h1 : (n : ℚ) - 1 / 2 < q) (h2 : q < n + 1 / 2) :
    roundHalfEven q = n := by
  unfold roundHalfEven
  simp only
  by_cases hq : (n : ℚ) ≤ q
  · have hf : ⌊q⌋ = n := Int.floor_eq_iff.mpr ⟨hq, by linarith⟩
    rw [hf, if_pos (by linarith)]
  · have hq' : q < n := not_le.mp hq
    have hf : ⌊q⌋ = n - 1 := Int.floor_eq_iff.mpr ⟨by push_cast; linarith, by push_cast; linarith⟩
    rw [hf]
    have hd : ¬ (q - ((n - 1 : ℤ) : ℚ) < 1 / 2) := by push_cast; linarith
    have hd2 : (1 : ℚ) / 2 < q - ((n - 1 : ℤ) : ℚ) := by push_cast; linarith
    rw [if_neg hd, if_pos hd2]; ring

theorem roundHalfEven_intCast (n : ℤ) : roundHalfEven (n : ℚ) = n :=
  roundHalfEven_of_near _ _ (by linarith) (by linarith)

theorem binadeExp_eq (x : ℚ) (e : ℤ) (he : -1022 ≤ e) (h1 : (2 : ℚ) ^ e ≤ |x|)
    (h2 : |x| < (2 : ℚ) ^ (e + 1)) : binadeExp x = e := by
  have hpos : 0 < |x| := lt_of_lt_of_le (by positivity) h1
  have hlog : Int.log 2 |x| = e := by
    apply le_antisymm
    · have := (Int.lt_zpow_iff_log_lt (b := 2) (by norm_num) hpos (x := e + 1)).mp
        (by exact_mod_cast h2)
      omega
    · exact (Int.zpow_le_iff_le_log (b := 2) (by norm_num) hpos).mp (by exact_mod_cast h1)
  rw [binadeExp, hlog]; omega

theorem roundDouble_eq (x : ℚ) (e : ℤ) (he : -1022 ≤ e) (h1 : (2 : ℚ) ^ e ≤ |x|)
    (h2 : |x| < (2 : ℚ) ^ (e + 1)) :
    roundDouble x = roundHalfEven (x / 2 ^ (e - 52)) * 2 ^ (e - 52) := by
  rw [roundDouble, binadeExp_eq x e he h1 h2]

theorem roundDouble_zero : roundDouble 0 = 0 := by
  simp [roundDouble, roundHalfEven]

theorem binadeExp_le (x : ℚ) (e : ℤ) (he : 0 ≤ e) (h : |x| < (2 : ℚ) ^ (e + 1)) :
    binadeExp x ≤ e := by
  rcases eq_or_lt_of_le (abs_nonneg x) with h0 | hpos
  · rw [binadeExp, ← h0, Int.log_zero_right]
    omega
  · have := (Int.lt_zpow_iff_log_lt (b := 2) (by norm_num) hpos (x := e + 1)).mp
      (by exact_mod_cast h)
    rw [binadeExp]; omega

theorem isDouble_of_dyadic (m j : ℤ) (hm : |m| < 2 ^ 53) (hj : -1074 ≤ j) :
    IsDouble ((m : ℚ) * 2 ^ j) := by
  unfold IsDouble
  rcases eq_or_ne m 0 with rfl | hm0
  · simp [roundDouble_zero]
  have h2pos : ∀ z : ℤ, (0 : ℚ) < 2 ^ z := fun z => by positivity
  have hxabs : |(m : ℚ) * 2 ^ j| = ((|m| : ℤ) : ℚ) * 2 ^ j := by
    rw [abs_mul, abs_of_pos (h2pos j)]; push_cast; rfl
  have hpos : 0 < |(m : ℚ) * 2 ^ j| := by
    rw [hxabs]; exact mul_pos (by exact_mod_cast abs_pos.mpr hm0) (h2pos j)
  have hexp : binadeExp ((m : ℚ) * 2 ^ j) - 52 ≤ j := by
    have hlt : |(m : ℚ) * 2 ^ j| < (2 : ℚ) ^ (53 + j) := by
      rw [hxabs, zpow_add₀ (by norm_num : (2 : ℚ) ≠ 0)]
      exact mul_lt_mul_of_pos_right (by exact_mod_cast hm) (h2pos j)
    have hL := Int.zpow_log_le_self (b := 2) (by norm_num) hpos
    have hL2 : (2 : ℚ) ^ Int.log 2 |(m : ℚ) * 2 ^ j| < (2 : ℚ) ^ (53 + j) :=
      lt_of_le_of_lt (by exact_mod_cast hL) hlt
    have hL3 : Int.log 2 |(m : ℚ) * 2 ^ j| < 53 + j :=
      (zpow_lt_zpow_iff_right₀ (by norm_num)).mp hL2
    rw [binadeExp]
    rcases le_total (Int.log 2 |(m : ℚ) * 2 ^ j|) (-1022) with h | h
    · rw [max_eq_right h]; omega
    · rw [max_eq_left h]; omega
  rw [roundDouble]
  generalize binadeExp ((m : ℚ) * 2 ^ j) - 52 = E at hexp ⊢
  obtain ⟨k, rfl⟩ : ∃ k : ℕ, j = E + k := ⟨(j - E).toNat, by omega⟩
  have hq : (m : ℚ) * 2 ^ (E + (k : ℤ)) / 2 ^ E = ((m * 2 ^ k : ℤ) : ℚ) := by
    rw [zpow_add₀ (by norm_num : (2 : ℚ) ≠ 0), zpow_natCast]
    push_cast
    field_simp
    ring
  rw [hq, roundHalfEven_intCast, zpow_add₀ (by norm_num : (2 : ℚ) ≠ 0), zpow_natCast]
  push_cast
  ring

theorem double_lt_one (r : ℚ) (hd : IsDouble r) (h0 : 0 ≤ r) (h1 : r < 1) :
    r ≤ 1 - 1 / 2 ^ 53 := by
  rcases eq_or_lt_of_le h0 with rfl | hpos
  · norm_num
  have habs : |r| = r := abs_of_pos hpos
  have hL : Int.log 2 r < 0 :=
    (Int.lt_zpow_iff_log_lt (b := 2) (by norm_num) hpos (x := 0)).mp (by simpa using h1)
  by_cases hcase : Int.log 2 r ≤ -2
  · have hlt := Int.lt_zpow_succ_log_self (b := 2) (by norm_num) r
    have hle : ((2 : ℕ) : ℚ) ^ (Int.log 2 r + 1) ≤ ((2 : ℕ) : ℚ) ^ (-1 : ℤ) :=
      zpow_le_zpow_right₀ (by norm_num) (by omega)
    have : r < 1 / 2 := by
      have h3 := lt_of_lt_of_le hlt hle
      norm_num at h3
      linarith
    have h4 : (1 : ℚ) / 2 ≤ 1 - 1 / 2 ^ 53 := by norm_num
    linarith
  · have hLe : Int.log 2 r = -1 := by omega
    have hb : binadeExp r = -1 := by rw [binadeExp, habs, hLe]; rfl
    unfold IsDouble at hd
    rw [roundDouble, hb] at hd
    set m : ℤ := roundHalfEven (r / 2 ^ ((-1 : ℤ) - 52)) with hm
    have hu : (2 : ℚ) ^ ((-1 : ℤ) - 52) = 1 / 2 ^ 53 := by norm_num
    rw [hu] at hd
    have hmlt : (m : ℚ) < 2 ^ 53 := by
      have : (m : ℚ) * (1 / 2 ^ 53) < 1 := by rw [hd]; exact h1
      have hp : (0 : ℚ) < 2 ^ 53 := by positivity
      calc (m : ℚ) = (m : ℚ) * (1 / 2 ^ 53) * 2 ^ 53 := by field_simp
        _ < 1 * 2 ^ 53 := mul_lt_mul_of_pos_right this hp
        _ = 2 ^ 53 := one_mul _
    have hmle : m ≤ 2 ^ 53 - 1 := by
      have : m < 2 ^ 53 := by exact_mod_cast hmlt
      omega
    have hmq : (m : ℚ) ≤ 2 ^ 53 - 1 := by exact_mod_cast hmle
    rw [← hd]
    have hp : (0 : ℚ) < 1 / 2 ^ 53 := by positivity
    calc (m : ℚ) * (1 / 2 ^ 53) ≤ (2 ^ 53 - 1) * (1 / 2 ^ 53) :=
          mul_le_mul_of_nonneg_right hmq hp.le
      _ = 1 - 1 / 2 ^ 53 := by norm_num

theorem roundDouble_mul_thousand (r : ℚ) (hd : IsDouble r) (h0 : 0 ≤ r) (h1 : r < 1) :
    0 ≤ roundDouble (r * 1000) ∧ roundDouble (r * 1000) < 1000 := by
  have hr := double_lt_one r hd h0 h1
  have hx0 : (0 : ℚ) ≤ r * 1000 := by positivity
  have hx1 : r * 1000 ≤ 1000 - 1000 / 2 ^ 53 := by linarith
  have hup : (0 : ℚ) < 2 ^ (binadeExp (r * 1000) - 52) := by positivity
  have hb : binadeExp (r * 1000) ≤ 9 := by
    apply binadeExp_le _ 9 (by norm_num)
    rw [abs_of_nonneg hx0]
    have e10 : (2 : ℚ) ^ ((9 : ℤ) + 1) = 1024 := by norm_num
    have : (1000 : ℚ) - 1000 / 2 ^ 53 < 1024 := by norm_num
    rw [e10]
    linarith
  have hulp : (2 : ℚ) ^ (binadeExp (r * 1000) - 52) ≤ 1 / 2 ^ 43 := by
    have h := zpow_le_zpow_right₀ (a := (2 : ℚ)) (by norm_num)
      (show binadeExp (r * 1000) - 52 ≤ -43 by omega)
    have e : (2 : ℚ) ^ (-43 : ℤ) = 1 / 2 ^ 43 := by norm_num
    rwa [e] at h
  constructor
  · rw [roundDouble]
    have := roundHalfEven_nonneg (r * 1000 / 2 ^ (binadeExp (r * 1000) - 52))
      (div_nonneg hx0 hup.le)
    exact mul_nonneg (by exact_mod_cast this) hup.le
  · rw [roundDouble]
    have h := roundHalfEven_le (r * 1000 / 2 ^ (binadeExp (r * 1000) - 52))
    have h2 := mul_le_mul_of_nonneg_right h hup.le
    have h3 : (r * 1000 / 2 ^ (binadeExp (r * 1000) - 52) + 1 / 2) *
        2 ^ (binadeExp (r * 1000) - 52) =
        r * 1000 + 2 ^ (binadeExp (r * 1000) - 52) / 2 := by
      field_simp
      ring
    rw [h3] at h2
    have h4 : (1000 : ℚ) - 1000 / 2 ^ 53 + (1 / 2 ^ 43) / 2 < 1000 := by norm_num
    linarith

theorem requestsSample_range (r : ℚ) (hd : IsDouble r) (h0 : 0 ≤ r) (h1 : r < 1) :
    ∃ n : ℕ, n ≤ 999 ∧ requestsSample r = (n : ℤ) := by
  obtain ⟨hlo', hhi'⟩ := roundDouble_mul_thousand r hd h0 h1
  have hlo : 0 ≤ requestsSample r := Int.floor_nonneg.mpr hlo'
  have hhi : requestsSample r < 1000 := by
    have hlt : roundDouble (r * 1000) < ((1000 : ℤ) : ℚ) := by push_cast; exact hhi'
    exact Int.floor_lt.mpr hlt
  refine ⟨(requestsSample r).toNat, ?_, (Int.toNat_of_nonneg hlo).symm⟩
  omega

theorem requestsSample_eval (r : ℚ) (e m k : ℤ) (he : -1022 ≤ e)
    (h1 : (2 : ℚ) ^ e ≤ |r * 1000|) (h2 : |r * 1000| < (2 : ℚ) ^ (e + 1))
    (hm1 : (m : ℚ) - 1 / 2 < r * 1000 / 2 ^ (e - 52))
    (hm2 : r * 1000 / 2 ^ (e - 52) < m + 1 / 2)
    (hk1 : (k : ℚ) ≤ m * 2 ^ (e - 52)) (hk2 : (m : ℚ) * 2 ^ (e - 52) < k + 1) :
    requestsSample r = k := by
  rw [requestsSample, mathFloor, roundDouble_eq _ e he h1 h2,
    roundHalfEven_of_near _ m hm1 hm2]
  exact Int.floor_eq_iff.mpr ⟨hk1, hk2⟩

theorem roundDouble_nine_tenths : roundDouble (9 / 10) = 8106479329266893 / 2 ^ 53 := by
  rw [roundDouble_eq _ (-1) (by norm_num) (by norm_num [abs_of_pos])
    (by norm_num [abs_of_pos]),
    roundHalfEven_of_near _ 8106479329266893 (by norm_num) (by norm_num)]
  norm_num

theorem roundDouble_one_tenth : roundDouble (1 / 10) = 3602879701896397 / 2 ^ 55 := by
  rw [roundDouble_eq _ (-4) (by norm_num) (by norm_num [abs_of_pos])
    (by norm_num [abs_of_pos]),
    roundHalfEven_of_near _ 7205759403792794 (by norm_num) (by norm_num)]
  norm_num

theorem mathRound_megabytes (b : ℕ) :
    mathRound ((b : ℚ) / 1024 / 1024) = (((b + 524288) / 1048576 : ℕ) : ℤ) := by
  have h : (b : ℚ) / 1024 / 1024 + 1 / 2 = (((b + 524288 : ℕ) : ℤ) : ℚ) / ((1048576 : ℕ) : ℚ) := by
    push_cast; ring
  rw [mathRound, h, Rat.floor_intCast_div_natCast]
  norm_cast

theorem megabytes_eq (b : ℕ) : megabytes b = toString ((b + 524288) / 1048576) ++ " MB" := by
  rw [megabytes, mathRound_megabytes]
  rfl

end ProbeApp

namespace ProbeApp

/-! ## Readiness and liveness -/

/-- C1: for every request, process state and incoming response object the `/ready`
handler answers status 200 (never 503) with a body whose `status` field is the string
`ready`; every request the application routes to `/ready` gets exactly that answer, and
`GET /ready` is routed there. -/
theorem ready_always_ready (numText : ℚ → String) (req : Request) (rt : Runtime) (res : Res) :
    (readyHandler req rt res).statusCode = 200 ∧
    (readyHandler req rt res).statusCode ≠ 503 ∧
    reportedStatus (readyHandler req rt res) = some (.str "ready") ∧
    (req.bodyError = none → matchRoute req = some .ready →
      (app numText req rt).res = readyHandler req rt Res.fresh) ∧
    matchRoute ⟨"GET", "/ready", none⟩ = some .ready := by
  refine ⟨rfl, by simp [readyHandler, Res.json, Res.status], rfl, ?_, by decide⟩
  intro hb hm
  simp [app, hb, hm, serveRoute]

/-- C2: the `/health` handler always answers status 200, and its response is a function
of the uptime reading and the clock reading alone: two calls with the same two readings
give the same response whatever the requests and the rest of the process state. -/
theorem health_always_200 (req req' : Request) (rt rt' : Runtime) (res : Res)
    (hu : rt.uptime = rt'.uptime) (hn : rt.now = rt'.now) :
    (healthHandler req rt res).statusCode = 200 ∧
    healthHandler req rt res = healthHandler req' rt' res ∧
    (healthHandler req rt res).jsonBody = some (.obj [
      ("status", .str "healthy"), ("uptime", .num rt.uptime), ("timestamp", .str rt.now)]) := by
  refine ⟨rfl, ?_, rfl⟩
  simp [healthHandler, hu, hn]

/-- Witness of C2: two different requests, two process states that agree on uptime and
clock only. -/
theorem health_always_200_witness :
    (healthHandler ⟨"GET", "/health", none⟩ sampleRuntime Res.fresh).statusCode = 200 ∧
    healthHandler ⟨"GET", "/health", none⟩ sampleRuntime Res.fresh =
      healthHandler ⟨"HEAD", "/health/", none⟩
        { sampleRuntimeLater with uptime := 12, now := "2024-01-01T00:00:00.001Z" } Res.fresh ∧
    (healthHandler ⟨"GET", "/health", none⟩ sampleRuntime Res.fresh).jsonBody = some (.obj [
      ("status", .str "healthy"), ("uptime", .num sampleRuntime.uptime),
      ("timestamp", .str sampleRuntime.now)]) :=
  health_always_200 ⟨"GET", "/health", none⟩ ⟨"HEAD", "/health/", none⟩ sampleRuntime
    { sampleRuntimeLater with uptime := 12, now := "2024-01-01T00:00:00.001Z" } Res.fresh rfl rfl

/-- C3: the uptime reported by `/health` is the runtime reading itself, so it is
non-decreasing along non-decreasing readings, and a second reading at least 5 above the
first is reported at least 5 above the first report. -/
theorem health_uptime_monotone (req1 req2 : Request) (rt1 rt2 : Runtime) (res1 res2 : Res)
    (h : rt1.uptime ≤ rt2.uptime) :
    ∃ v1 v2, reportedUptime (healthHandler req1 rt1 res1) = some v1 ∧
      reportedUptime (healthHandler req2 rt2 res2) = some v2 ∧
      v1 = rt1.uptime ∧ v2 = rt2.uptime ∧ v1 ≤ v2 ∧
      (rt1.uptime + 5 ≤ rt2.uptime → v1 + 5 ≤ v2) :=
  ⟨rt1.uptime, rt2.uptime, rfl, rfl, rfl, rfl, h, fun h5 => h5⟩

/-- Witness of C3: readings 12 and 17, five seconds apart. -/
theorem health_uptime_monotone_witness :
    sampleRuntime.uptime ≤ sampleRuntimeLater.uptime ∧
    ∃ v1 v2, reportedUptime
        (healthHandler ⟨"GET", "/health", none⟩ sampleRuntime Res.fresh) = some v1 ∧
      reportedUptime
        (healthHandler ⟨"GET", "/health", none⟩ sampleRuntimeLater Res.fresh) = some v2 ∧
      v1 = sampleRuntime.uptime ∧ v2 = sampleRuntimeLater.uptime ∧ v1 ≤ v2 ∧
      (sampleRuntime.uptime + 5 ≤ sampleRuntimeLater.uptime → v1 + 5 ≤ v2) :=
  ⟨by decide, health_uptime_monotone _ _ sampleRuntime sampleRuntimeLater _ _ (by decide)⟩

/-- C7 as stated fails: for a `GET /ready` request the body is not the object
`{status: "ready", checks: []}`; it has no `checks` field at all. -/
theorem ready_body_has_no_checks :
    (app sampleNumText ⟨"GET", "/ready", none⟩ sampleRuntime).res.jsonBody ≠
      some (.obj [("status", .str "ready"), ("checks", .arr [])]) ∧
    ((app sampleNumText ⟨"GET", "/ready", none⟩ sampleRuntime).res.jsonBody.bind
      (fun j => j.field "checks")).isNone = true := by
  constructor
  · have hm : matchRoute ⟨"GET", "/ready", none⟩ = some .ready := by decide
    simp [app, hm, serveRoute, readyHandler, Res.json, Res.status, Res.jsonBody, Res.fresh]
  · rfl

/-- C7, amended: the body of the `/ready` response is exactly the object
`{status: "ready", timestamp: t}` with `t` the handler's clock reading; its `status`
field is `ready` and it carries no `checks` field. -/
theorem ready_body_exact (req : Request) (rt : Runtime) (res : Res) :
    (readyHandler req rt res).jsonBody =
      some (.obj [("status", .str "ready"), ("timestamp", .str rt.now)]) ∧
    reportedStatus (readyHandler req rt res) = some (.str "ready") ∧
    ((readyHandler req rt res).jsonBody.bind (fun j => j.field "checks")) = none :=
  ⟨rfl, rfl, rfl⟩

/-! ## Metrics -/

theorem metricsRoute_ok (numText : ℚ → String) (req : Request) (r u : ℚ) :
    metricsRoute numText req (.ok r) (.ok u) Res.fresh =
      ⟨⟨200, some "text/plain",
        some (.text (jsTrim (metricsTemplate (toString (requestsSample r)) (numText u))))⟩, []⟩ :=
  rfl

/-- C4: for any two `/metrics` calls, whatever the draws and the uptime readings, the
output lists the same metric names in the same order, `app_requests_total` before
`app_uptime_seconds`, and each sample line comes right after its own HELP and TYPE
lines. -/
theorem metrics_order_stable (numText : ℚ → String) (req1 req2 : Request) (r1 u1 r2 u2 : ℚ)
    (h1 : IsNumberText (numText u1)) (h2 : IsNumberText (numText u2)) :
    ∃ b1 b2,
      (metricsRoute numText req1 (.ok r1) (.ok u1) Res.fresh).res.textBody = some b1 ∧
      (metricsRoute numText req2 (.ok r2) (.ok u2) Res.fresh).res.textBody = some b2 ∧
      metricNames b1 = ["app_requests_total", "app_uptime_seconds"] ∧
      metricNames b2 = metricNames b1 ∧
      scrapeKeys b1 =
        ["# HELP app_requests_total Total number of requests",
         "# TYPE app_requests_total counter",
         "app_requests_total",
         "",
         "# HELP app_uptime_seconds Application uptime in seconds",
         "# TYPE app_uptime_seconds gauge",
         "app_uptime_seconds"] ∧
      scrapeKeys b2 = scrapeKeys b1 := by
  refine ⟨_, _, by rw [metricsRoute_ok]; rfl, by rw [metricsRoute_ok]; rfl, ?_, ?_, ?_, ?_⟩
  · rw [jsTrim_metricsTemplate _ _ h1]
    exact metricNames_exposition _ _ (intText_no_newline _) (numberText_no_newline h1)
  · rw [jsTrim_metricsTemplate _ _ h1, jsTrim_metricsTemplate _ _ h2,
      metricNames_exposition _ _ (intText_no_newline _) (numberText_no_newline h1),
      metricNames_exposition _ _ (intText_no_newline _) (numberText_no_newline h2)]
  · rw [jsTrim_metricsTemplate _ _ h1]
    exact scrapeKeys_exposition _ _ (intText_no_newline _) (numberText_no_newline h1)
  · rw [jsTrim_metricsTemplate _ _ h1, jsTrim_metricsTemplate _ _ h2,
      scrapeKeys_exposition _ _ (intText_no_newline _) (numberText_no_newline h1),
      scrapeKeys_exposition _ _ (intText_no_newline _) (numberText_no_newline h2)]

/-- Witness of C4: the two sample process states (draws 9/10 and 1/10, uptimes 12 and
17). -/
theorem metrics_order_stable_witness :
    IsNumberText (sampleNumText 12) ∧ IsNumberText (sampleNumText 17) ∧
    ∃ b1 b2,
      (metricsRoute sampleNumText ⟨"GET", "/metrics", none⟩ (.ok (9 / 10)) (.ok 12)
        Res.fresh).res.textBody = some b1 ∧
      (metricsRoute sampleNumText ⟨"GET", "/metrics", none⟩ (.ok (1 / 10)) (.ok 17)
        Res.fresh).res.textBody = some b2 ∧
      metricNames b1 = ["app_requests_total", "app_uptime_seconds"] ∧
      metricNames b2 = metricNames b1 ∧
      scrapeKeys b1 =
        ["# HELP app_requests_total Total number of requests",
         "# TYPE app_requests_total counter",
         "app_requests_total",
         "",
         "# HELP app_uptime_seconds Application uptime in seconds",
         "# TYPE app_uptime_seconds gauge",
         "app_uptime_seconds"] ∧
      scrapeKeys b2 = scrapeKeys b1 :=
  ⟨by decide, by decide,
    metrics_order_stable sampleNumText _ _ (9 / 10) 12 (1 / 10) 17 (by decide) (by decide)⟩

/-- C9 as stated fails: at the draw `535928355657089 / 2^52`, a double in `[0,1)`, the
floor of the exact product `1000 * r` is 118, but the double product rounds up to 119
and the third line of the body reads 119. -/
theorem requests_sample_rounds_up :
    IsDouble roundingDraw ∧ 0 ≤ roundingDraw ∧ roundingDraw < 1 ∧
    ⌊1000 * roundingDraw⌋ = 118 ∧
    requestsSample roundingDraw = 119 ∧
    (metricsRoute sampleNumText ⟨"GET", "/metrics", none⟩ (.ok roundingDraw) (.ok 12)
      Res.fresh).res.textBody = some ("\n".intercalate (expositionLines "119" "12")) := by
  have hd : IsDouble roundingDraw := by
    have h := isDouble_of_dyadic 535928355657089 (-52) (by norm_num) (by norm_num)
    have e : ((535928355657089 : ℤ) : ℚ) * 2 ^ (-52 : ℤ) = roundingDraw := by
      norm_num [roundingDraw]
    rwa [e] at h
  have e119 : requestsSample roundingDraw = 119 :=
    requestsSample_eval _ 6 8373880557142016 119 (by norm_num)
      (by norm_num [roundingDraw, abs_of_pos]) (by norm_num [roundingDraw, abs_of_pos])
      (by norm_num [roundingDraw]) (by norm_num [roundingDraw]) (by norm_num) (by norm_num)
  have t : IsNumberText (sampleNumText 12) := by decide
  refine ⟨hd, by norm_num [roundingDraw], by norm_num [roundingDraw],
    Int.floor_eq_iff.mpr ⟨by norm_num [roundingDraw], by norm_num [roundingDraw]⟩, e119, ?_⟩
  rw [metricsRoute_ok]
  simp only [Res.textBody]
  rw [jsTrim_metricsTemplate _ _ t, e119]; rfl

/-- C9, amended: for every draw `r` in `[0,1)` (a double) and every uptime reading `u`
the `/metrics` response has status 200, type `text/plain`, and a text body that splits
into exactly the seven exposition lines, with `n` on the third line and the text of `u`
on the seventh, where `n` is the floor of the double product `r * 1000` (the exact
product rounded to the nearest double) and lies between 0 and 999; the body neither
starts nor ends with white space; and a request the application routes to `/metrics`
gets this response. -/
theorem metrics_exposition (numText : ℚ → String) (req : Request) (r u : ℚ)
    (hd : IsDouble r) (h0 : 0 ≤ r) (h1 : r < 1) (hu : IsNumberText (numText u)) :
    ∃ (n : ℕ) (body : String), n ≤ 999 ∧ (n : ℤ) = ⌊roundDouble (r * 1000)⌋ ∧
      (metricsRoute numText req (.ok r) (.ok u) Res.fresh).res.statusCode = 200 ∧
      (metricsRoute numText req (.ok r) (.ok u) Res.fresh).res.contentType =
        some "text/plain" ∧
      (metricsRoute numText req (.ok r) (.ok u) Res.fresh).res.textBody = some body ∧
      textLines body =
        ["# HELP app_requests_total Total number of requests",
         "# TYPE app_requests_total counter",
         "app_requests_total\x7bmethod=\"GET\",endpoint=\"/\"\x7d " ++ toString n,
         "",
         "# HELP app_uptime_seconds Application uptime in seconds",
         "# TYPE app_uptime_seconds gauge",
         "app_uptime_seconds " ++ numText u] ∧
      (∃ c, body.data.head? = some c ∧ isJsWhiteSpace c = false) ∧
      (∃ c, body.data.getLast? = some c ∧ isJsWhiteSpace c = false) ∧
      (∀ rt : Runtime, rt.random = r → rt.uptime = u → req.bodyError = none →
        matchRoute req = some .metrics →
        (app numText req rt).res = (metricsRoute numText req (.ok r) (.ok u) Res.fresh).res) := by
  obtain ⟨n, hn, hrn⟩ := requestsSample_range r hd h0 h1
  have hbody : jsTrim (metricsTemplate (toString (requestsSample r)) (numText u)) =
      "\n".intercalate (expositionLines (toString n) (numText u)) := by
    rw [jsTrim_metricsTemplate _ _ hu, hrn]; rfl
  have hnl : '\n' ∉ (toString n).data := intText_no_newline (n : ℤ)
  refine ⟨n, "\n".intercalate (expositionLines (toString n) (numText u)), hn, ?_, rfl, rfl, ?_,
    ?_, ?_, ?_, ?_⟩
  · rw [← hrn, requestsSample, mathFloor]
  · rw [metricsRoute_ok, hbody]; rfl
  · rw [textLines_exposition _ _ hnl (numberText_no_newline hu)]; rfl
  · exact ⟨'#', exposition_head _ _, by decide⟩
  · exact ⟨_, exposition_last _ _ hu, numberText_last hu⟩
  · intro rt hr hup hb hm
    simp [app, hb, hm, serveRoute, hr, hup]

/-- Witness of C9, amended: the draw 7/8 and uptime 12. -/
theorem metrics_exposition_witness :
    IsDouble (7 / 8) ∧ (0 : ℚ) ≤ 7 / 8 ∧ (7 / 8 : ℚ) < 1 ∧ IsNumberText (sampleNumText 12) ∧
    ∃ (n : ℕ) (body : String), n ≤ 999 ∧ (n : ℤ) = ⌊roundDouble ((7 / 8 : ℚ) * 1000)⌋ ∧
      (metricsRoute sampleNumText ⟨"GET", "/metrics", none⟩ (.ok (7 / 8)) (.ok 12)
        Res.fresh).res.statusCode = 200 ∧
      (metricsRoute sampleNumText ⟨"GET", "/metrics", none⟩ (.ok (7 / 8)) (.ok 12)
        Res.fresh).res.contentType = some "text/plain" ∧
      (metricsRoute sampleNumText ⟨"GET", "/metrics", none⟩ (.ok (7 / 8)) (.ok 12)
        Res.fresh).res.textBody = some body ∧
      textLines body =
        ["# HELP app_requests_total Total number of requests",
         "# TYPE app_requests_total counter",
         "app_requests_total\x7bmethod=\"GET\",endpoint=\"/\"\x7d " ++ toString n,
         "",
         "# HELP app_uptime_seconds Application uptime in seconds",
         "# TYPE app_uptime_seconds gauge",
         "app_uptime_seconds " ++ sampleNumText 12] ∧
      (∃ c, body.data.head? = some c ∧ isJsWhiteSpace c = false) ∧
      (∃ c, body.data.getLast? = some c ∧ isJsWhiteSpace c = false) ∧
      (∀ rt : Runtime, rt.random = 7 / 8 → rt.uptime = 12 →
        (⟨"GET", "/metrics", none⟩ : Request).bodyError = none →
        matchRoute ⟨"GET", "/metrics", none⟩ = some .metrics →
        (app sampleNumText ⟨"GET", "/metrics", none⟩ rt).res =
          (metricsRoute sampleNumText ⟨"GET", "/metrics", none⟩ (.ok (7 / 8)) (.ok 12)
            Res.fresh).res) :=
  have hd : IsDouble (7 / 8) := by
    have h := isDouble_of_dyadic 7 (-3) (by norm_num) (by norm_num)
    have e : ((7 : ℤ) : ℚ) * 2 ^ (-3 : ℤ) = 7 / 8 := by norm_num
    rwa [e] at h
  ⟨hd, by norm_num, by norm_num, by decide,
    metrics_exposition sampleNumText ⟨"GET", "/metrics", none⟩ (7 / 8) 12
      hd (by norm_num) (by norm_num) (by decide)⟩

/-- C5 fails on the code: two consecutive `/metrics` reads in one process lifetime (the
uptime advances from 12 to 17), with the draws 0.9 and 0.1 (doubles in `[0,1)`), report
`app_requests_total` 900 and then 100, although both scrapes declare the metric with
`TYPE counter`. -/
theorem requests_total_decreases :
    sampleRuntime.uptime ≤ sampleRuntimeLater.uptime ∧
    (app sampleNumText ⟨"GET", "/metrics", none⟩ sampleRuntime).res.textBody =
      some ("\n".intercalate (expositionLines "900" "12")) ∧
    (app sampleNumText ⟨"GET", "/metrics", none⟩ sampleRuntimeLater).res.textBody =
      some ("\n".intercalate (expositionLines "100" "17")) ∧
    requestsSample sampleRuntime.random = 900 ∧
    requestsSample sampleRuntimeLater.random = 100 ∧
    ¬ (requestsSample sampleRuntime.random ≤ requestsSample sampleRuntimeLater.random) ∧
    (IsDouble sampleRuntime.random ∧ 0 ≤ sampleRuntime.random ∧ sampleRuntime.random < 1) ∧
    (IsDouble sampleRuntimeLater.random ∧ 0 ≤ sampleRuntimeLater.random ∧
      sampleRuntimeLater.random < 1) := by
  have r1 : sampleRuntime.random = 8106479329266893 / 2 ^ 53 := roundDouble_nine_tenths
  have r2 : sampleRuntimeLater.random = 3602879701896397 / 2 ^ 55 := roundDouble_one_tenth
  have e1 : requestsSample sampleRuntime.random = 900 := by
    rw [r1]
    exact requestsSample_eval _ 9 (900 * 2 ^ 43) 900 (by norm_num) (by norm_num [abs_of_pos])
      (by norm_num [abs_of_pos]) (by norm_num) (by norm_num) (by norm_num) (by norm_num)
  have e2 : requestsSample sampleRuntimeLater.random = 100 := by
    rw [r2]
    exact requestsSample_eval _ 6 (100 * 2 ^ 46) 100 (by norm_num) (by norm_num [abs_of_pos])
      (by norm_num [abs_of_pos]) (by norm_num) (by norm_num) (by norm_num) (by norm_num)
  have d1 : IsDouble sampleRuntime.random := by
    have h := isDouble_of_dyadic 8106479329266893 (-53) (by norm_num) (by norm_num)
    have e : ((8106479329266893 : ℤ) : ℚ) * 2 ^ (-53 : ℤ) = sampleRuntime.random := by
      rw [r1]; norm_num
    rwa [e] at h
  have d2 : IsDouble sampleRuntimeLater.random := by
    have h := isDouble_of_dyadic 3602879701896397 (-55) (by norm_num) (by norm_num)
    have e : ((3602879701896397 : ℤ) : ℚ) * 2 ^ (-55 : ℤ) = sampleRuntimeLater.random := by
      rw [r2]; norm_num
    rwa [e] at h
  have hm : matchRoute ⟨"GET", "/metrics", none⟩ = some .metrics := by decide
  have t1 : IsNumberText (sampleNumText sampleRuntime.uptime) := by decide
  have t2 : IsNumberText (sampleNumText sampleRuntimeLater.uptime) := by decide
  refine ⟨by decide, ?_, ?_, e1, e2, by rw [e1, e2]; decide,
    ⟨d1, by rw [r1]; norm_num, by rw [r1]; norm_num⟩,
    ⟨d2, by rw [r2]; norm_num, by rw [r2]; norm_num⟩⟩
  · simp only [app, hm, serveRoute, metricsRoute_ok, Res.textBody]
    rw [jsTrim_metricsTemplate _ _ t1, e1]; rfl
  · simp only [app, hm, serveRoute, metricsRoute_ok, Res.textBody]
    rw [jsTrim_metricsTemplate _ _ t2, e2]; rfl

/-- C6 as stated fails: when the uptime sample faults the response has status 500, not
200, and carries no text body, so the other sample is absent. -/
theorem metrics_fault_not_isolated :
    (metricsRoute sampleNumText ⟨"GET", "/metrics", none⟩ (.ok (9 / 10))
      (.error ⟨"uptime unavailable"⟩) Res.fresh).res.statusCode = 500 ∧
    (metricsRoute sampleNumText ⟨"GET", "/metrics", none⟩ (.ok (9 / 10))
      (.error ⟨"uptime unavailable"⟩) Res.fresh).res.textBody = none := by
  constructor <;> rfl

/-- C6, amended: a faulting sample computation is not isolated. If computing either of
the two `/metrics` samples faults, the error handler answers: status 500, JSON body
`{error: "Internal Server Error", message: m}` with `m` the message of the fault, no
text body (no sample, no skipped indicator), and the fault is written to the console. -/
theorem metrics_fault_answers_500 (numText : ℚ → String) (req : Request)
    (random uptime : Completion ℚ) (e : JsError)
    (h : random = .error e ∨ ∃ r, random = .ok r ∧ uptime = .error e) :
    (metricsRoute numText req random uptime Res.fresh).res.statusCode = 500 ∧
    (metricsRoute numText req random uptime Res.fresh).res.jsonBody =
      some (.obj [("error", .str "Internal Server Error"), ("message", .str e.message)]) ∧
    (metricsRoute numText req random uptime Res.fresh).res.textBody = none ∧
    (metricsRoute numText req random uptime Res.fresh).console = [.error "Error:" e] := by
  rcases h with h | ⟨r, hr, hu⟩
  · subst h; exact ⟨rfl, rfl, rfl, rfl⟩
  · subst hr; subst hu; exact ⟨rfl, rfl, rfl, rfl⟩

/-- Witness of C6, amended: the uptime sample faults after the draw succeeded. -/
theorem metrics_fault_answers_500_witness :
    (metricsRoute sampleNumText ⟨"GET", "/metrics", none⟩ (.ok (9 / 10))
      (.error ⟨"uptime unavailable"⟩) Res.fresh).res.statusCode = 500 ∧
    (metricsRoute sampleNumText ⟨"GET", "/metrics", none⟩ (.ok (9 / 10))
      (.error ⟨"uptime unavailable"⟩) Res.fresh).res.jsonBody =
      some (.obj [("error", .str "Internal Server Error"),
        ("message", .str "uptime unavailable")]) ∧
    (metricsRoute sampleNumText ⟨"GET", "/metrics", none⟩ (.ok (9 / 10))
      (.error ⟨"uptime unavailable"⟩) Res.fresh).res.textBody = none ∧
    (metricsRoute sampleNumText ⟨"GET", "/metrics", none⟩ (.ok (9 / 10))
      (.error ⟨"uptime unavailable"⟩) Res.fresh).console =
      [.error "Error:" ⟨"uptime unavailable"⟩] :=
  metrics_fault_answers_500 sampleNumText ⟨"GET", "/metrics", none⟩ (.ok (9 / 10))
    (.error ⟨"uptime unavailable"⟩) ⟨"uptime unavailable"⟩ (Or.inr ⟨9 / 10, rfl, rfl⟩)

/-! ## Routing -/

theorem serveRoute_status (numText : ℚ → String) (r : Route) (req : Request) (rt : Runtime) :
    (serveRoute numText r req rt).res.statusCode = 200 := by
  cases r <;> rfl

theorem matchRoute_eq_none (req : Request) :
    matchRoute req = none ↔
      (handlesMethod req.method = false ∨
        ∀ r ∈ routes, pathMatches r.pattern req.path = false) := by
  simp only [matchRoute, List.find?_eq_none, Bool.and_eq_true, not_and, Bool.not_eq_true]
  constructor
  · intro h
    by_cases hm : handlesMethod req.method = false
    · exact Or.inl hm
    · right
      intro r hr
      by_contra hp
      exact hm (h r hr (by simpa using hp))
  · rintro (hm | hp) r hr hpm
    · exact hm
    · rw [hp r hr] at hpm; exact absurd hpm (by decide)

theorem routes_match_iff (path : String) :
    (∃ r ∈ routes, pathMatches r.pattern path = true) ↔ lowerPath path ∈ servedPaths := by
  have e1 : ("/health" ++ "/" : String) = "/health/" := by decide
  have e2 : ("/ready" ++ "/" : String) = "/ready/" := by decide
  have e3 : ("/metrics" ++ "/" : String) = "/metrics/" := by decide
  have e4 : ("/api/info" ++ "/" : String) = "/api/info/" := by decide
  simp only [routes, servedPaths, pathMatches, Route.pattern, List.mem_cons, List.mem_singleton,
    exists_eq_or_imp, List.not_mem_nil, false_and, exists_false, or_false,
    Bool.or_eq_true, decide_eq_true_eq, e1, e2, e3, e4]
  simp
  tauto

theorem matchRoute_eq_none_iff (req : Request) :
    matchRoute req = none ↔
      ¬ ((req.method = "GET" ∨ req.method = "HEAD") ∧ lowerPath req.path ∈ servedPaths) := by
  rw [matchRoute_eq_none, ← routes_match_iff]
  simp only [handlesMethod, Bool.or_eq_false_iff, decide_eq_false_iff_not, not_and, not_exists,
    Bool.not_eq_true]
  constructor
  · rintro (⟨h1, h2⟩ | h) hm
    · rcases hm with hm | hm
      · exact absurd hm h1
      · exact absurd hm h2
    · intro r hr; exact h r hr
  · intro h
    by_cases hm : req.method = "GET" ∨ req.method = "HEAD"
    · right
      intro r hr
      exact h hm r hr
    · left
      exact ⟨fun hg => hm (Or.inl hg), fun hh => hm (Or.inr hh)⟩

/-- C8 as stated fails: a `HEAD` request to `/health`, and `GET` requests to `/health/`
and `/HEALTH`, match none of the five routes in the literal sense (another method, or a
path that is none of the five strings), yet each is answered 200 by the health handler
and not by the 404 handler. -/
theorem head_and_path_variants_are_served :
    ("HEAD" ≠ "GET" ∧ (⟨"HEAD", "/health", none⟩ : Request).bodyError = none ∧
      (app sampleNumText ⟨"HEAD", "/health", none⟩ sampleRuntime).res.statusCode = 200 ∧
      (app sampleNumText ⟨"HEAD", "/health", none⟩ sampleRuntime).res.statusCode ≠ 404) ∧
    ("/health/" ∉ ["/", "/health", "/ready", "/metrics", "/api/info"] ∧
      (app sampleNumText ⟨"GET", "/health/", none⟩ sampleRuntime).res.statusCode = 200) ∧
    ("/HEALTH" ∉ ["/", "/health", "/ready", "/metrics", "/api/info"] ∧
      (app sampleNumText ⟨"GET", "/HEALTH", none⟩ sampleRuntime).res.statusCode = 200) := by
  decide

/-- C8, amended: for a request whose body parsing did not fail, the 404 handler
answers exactly when no route matches under the router's matching, that is unless the
method is `GET` or `HEAD` and the path, with ASCII letters lower-cased, is `/` (or
empty) or one of `/health`, `/ready`, `/metrics`, `/api/info` optionally followed by
one slash. Then the status is 404 and the
body is `{error: "Not Found", path: p}` with `p` the request's own path. A matched
request gets the response of its own route handler, with status 200; every `GET`
request to one of the five paths is matched by the route registered with that path. -/
theorem not_found_iff_unmatched (numText : ℚ → String) (req : Request) (rt : Runtime)
    (hb : req.bodyError = none) :
    (matchRoute req = none ↔
      ¬ ((req.method = "GET" ∨ req.method = "HEAD") ∧ lowerPath req.path ∈ servedPaths)) ∧
    ((app numText req rt).res.statusCode = 404 ↔ matchRoute req = none) ∧
    (matchRoute req = none →
      (app numText req rt).res = notFoundHandler req Res.fresh ∧
      (app numText req rt).res.jsonBody =
        some (.obj [("error", .str "Not Found"), ("path", .str req.path)])) ∧
    (∀ r, matchRoute req = some r →
      (app numText req rt).res = (serveRoute numText r req rt).res ∧
      (app numText req rt).res.statusCode = 200) ∧
    (req.method = "GET" → req.path ∈ ["/", "/health", "/ready", "/metrics", "/api/info"] →
      ∃ r, matchRoute req = some r ∧ r.pattern = req.path) := by
  have hnone : matchRoute req = none →
      (app numText req rt).res = notFoundHandler req Res.fresh := by
    intro hm; simp [app, hb, hm]
  have hsome : ∀ r, matchRoute req = some r →
      (app numText req rt).res = (serveRoute numText r req rt).res := by
    intro r hm; simp [app, hb, hm]
  refine ⟨matchRoute_eq_none_iff req, ?_, ?_, ?_, ?_⟩
  · constructor
    · intro h404
      cases hm : matchRoute req with
      | none => rfl
      | some r =>
        rw [hsome r hm, serveRoute_status] at h404
        exact absurd h404 (by decide)
    · intro hm
      rw [hnone hm]; rfl
  · intro hm
    exact ⟨hnone hm, by rw [hnone hm]; rfl⟩
  · intro r hm
    exact ⟨hsome r hm, by rw [hsome r hm, serveRoute_status]⟩
  · intro hget hpath
    obtain ⟨m, p, b⟩ := req
    simp only at hget hpath hb
    subst hget
    subst hb
    simp only [List.mem_cons, List.mem_singleton, List.not_mem_nil, or_false] at hpath
    rcases hpath with h | h | h | h | h <;> subst h
    · exact ⟨.root, by decide, rfl⟩
    · exact ⟨.health, by decide, rfl⟩
    · exact ⟨.ready, by decide, rfl⟩
    · exact ⟨.metrics, by decide, rfl⟩
    · exact ⟨.info, by decide, rfl⟩

/-- Witness of C8, amended: a `POST` request to `/health`. -/
theorem not_found_iff_unmatched_witness :
    (⟨"POST", "/health", none⟩ : Request).bodyError = none ∧
    matchRoute ⟨"POST", "/health", none⟩ = none ∧
    (app sampleNumText ⟨"POST", "/health", none⟩ sampleRuntime).res.statusCode = 404 ∧
    (app sampleNumText ⟨"POST", "/health", none⟩ sampleRuntime).res.jsonBody =
      some (.obj [("error", .str "Not Found"), ("path", .str "/health")]) :=
  have h := not_found_iff_unmatched sampleNumText ⟨"POST", "/health", none⟩ sampleRuntime rfl
  ⟨rfl, by decide, h.2.1.mpr (by decide), (h.2.2.1 (by decide)).2⟩

/-! ## Memory figures of `/api/info` -/

/-- Division of a byte count below `2^53` by 1024, once or twice, is exact in doubles:
rounding changes neither quotient. -/
theorem megabytes_quotients_exact (b : ℕ) (hb : b < 2 ^ 53) :
    roundDouble ((b : ℚ) / 1024) = (b : ℚ) / 1024 ∧
    roundDouble ((b : ℚ) / 1024 / 1024) = (b : ℚ) / 1024 / 1024 := by
  have habs : |(b : ℤ)| < 2 ^ 53 := by
    rw [abs_of_nonneg (Int.natCast_nonneg b)]; exact_mod_cast hb
  have h1 := isDouble_of_dyadic b (-10) habs (by norm_num)
  have h2 := isDouble_of_dyadic b (-20) habs (by norm_num)
  have e1 : ((b : ℤ) : ℚ) * 2 ^ (-10 : ℤ) = (b : ℚ) / 1024 := by
    push_cast; norm_num; ring
  have e2 : ((b : ℤ) : ℚ) * 2 ^ (-20 : ℤ) = (b : ℚ) / 1024 / 1024 := by
    push_cast; norm_num; ring
  rw [e1] at h1
  rw [e2] at h2
  exact ⟨h1, h2⟩

/-- C10: for every pair of `memoryUsage` readings, each memory figure of `/api/info` is
the decimal text, followed by ` MB`, of the byte count divided by 1048576 and rounded to
the nearest integer, ties upwards (below 524288 bytes `0 MB`, at 524288 bytes `1 MB`);
the total comes from the first reading and the used figure from the second. The
rounding is monotone in the byte count, so when the `heapUsed` reading is at most the
`heapTotal` reading the number in `memory.used` is at most the number in
`memory.total`. -/
theorem info_memory_figures (req : Request) (rt : Runtime) (res : Res) :
    ∃ total used : ℕ,
      memoryField (infoHandler req rt res) "total" = some (.str (toString total ++ " MB")) ∧
      memoryField (infoHandler req rt res) "used" = some (.str (toString used ++ " MB")) ∧
      ((total : ℚ) - 1 / 2 ≤ (rt.memFirst.heapTotal : ℚ) / 1048576 ∧
        (rt.memFirst.heapTotal : ℚ) / 1048576 < (total : ℚ) + 1 / 2) ∧
      ((used : ℚ) - 1 / 2 ≤ (rt.memSecond.heapUsed : ℚ) / 1048576 ∧
        (rt.memSecond.heapUsed : ℚ) / 1048576 < (used : ℚ) + 1 / 2) ∧
      (rt.memSecond.heapUsed ≤ rt.memFirst.heapTotal → used ≤ total) ∧
      (∀ b b' : ℕ, b ≤ b' →
        mathRound ((b : ℚ) / 1024 / 1024) ≤ mathRound ((b' : ℚ) / 1024 / 1024)) ∧
      (∀ b : ℕ, b < 524288 → megabytes b = "0 MB") ∧
      megabytes 524288 = "1 MB" := by
  have hround : ∀ b : ℕ, ((((b + 524288) / 1048576 : ℕ) : ℚ) - 1 / 2 ≤ (b : ℚ) / 1048576 ∧
      (b : ℚ) / 1048576 < (((b + 524288) / 1048576 : ℕ) : ℚ) + 1 / 2) := by
    intro b
    have hfl := mathRound_megabytes b
    have hiff := Int.floor_eq_iff.mp hfl
    have hcast : ((((b + 524288) / 1048576 : ℕ) : ℤ) : ℚ) = (((b + 524288) / 1048576 : ℕ) : ℚ) :=
      by norm_cast
    rw [hcast] at hiff
    have e : (b : ℚ) / 1048576 = (b : ℚ) / 1024 / 1024 := by ring
    constructor
    · have h1 := hiff.1
      rw [e]; linarith
    · have h2 := hiff.2
      rw [e]; linarith
  refine ⟨(rt.memFirst.heapTotal + 524288) / 1048576, (rt.memSecond.heapUsed + 524288) / 1048576,
    ?_, ?_, hround _, hround _, ?_, ?_, ?_, ?_⟩
  · simp only [infoHandler, memoryField, megabytes_eq]; rfl
  · simp only [infoHandler, memoryField, megabytes_eq]; rfl
  · intro h
    exact Nat.div_le_div_right (by omega)
  · intro b b' hbb
    rw [mathRound_megabytes, mathRound_megabytes]
    exact_mod_cast Nat.div_le_div_right (by omega)
  · intro b hlt
    rw [megabytes_eq, Nat.div_eq_of_lt (by omega)]; rfl
  · rw [megabytes_eq]; rfl

/-- Witness of C10: the second sample state, where the heap grew between the two
readings (8 MiB total read first, then 6 MiB in use out of 9 MiB). -/
theorem info_memory_figures_witness :
    sampleRuntimeLater.memSecond.heapUsed ≤ sampleRuntimeLater.memFirst.heapTotal ∧
    memoryField (infoHandler ⟨"GET", "/api/info", none⟩ sampleRuntimeLater Res.fresh) "total" =
      some (.str "8 MB") ∧
    memoryField (infoHandler ⟨"GET", "/api/info", none⟩ sampleRuntimeLater Res.fresh) "used" =
      some (.str "6 MB") ∧
    ∃ total used : ℕ,
      memoryField (infoHandler ⟨"GET", "/api/info", none⟩ sampleRuntimeLater Res.fresh)
        "total" = some (.str (toString total ++ " MB")) ∧
      memoryField (infoHandler ⟨"GET", "/api/info", none⟩ sampleRuntimeLater Res.fresh)
        "used" = some (.str (toString used ++ " MB")) ∧
      used ≤ total := by
  obtain ⟨total, used, ht, hu, _, _, hle, _⟩ :=
    info_memory_figures ⟨"GET", "/api/info", none⟩ sampleRuntimeLater Res.fresh
  refine ⟨by decide, ?_, ?_, total, used, ht, hu, hle (by decide)⟩
  · simp only [infoHandler, memoryField, megabytes_eq]; rfl
  · simp only [infoHandler, memoryField, megabytes_eq]; rfl

end ProbeApp
